import Mathlib

/-!
Verification of the pyshape/onpy 2-D sketch-entity and entity-filter
subsystem.  The geometric primitives (`SketchCircle`, `SketchLine`,
`SketchArc`) are embedded over the real numbers; the query filter engine
(`EntityFilter`) is embedded as pure functions over explicit state, with the
remote evaluator supplied as an oracle argument.  Helper routines of the
repository that sit outside the provided sources (the entity base class's
point transforms, the id generator, `unwrap`, and the query-fragment
emitters) are modelled from the specification and marked as such in their
doc comments.
-/

namespace Pyshape

/-- Two-dimensional point, from onpy.util.misc.Point2D (component container
used by every sketch entity). -/
structure Point2D where
  x : ℝ
  y : ℝ

/-- Point2D.from_pair: build a point from a 2-tuple. -/
def Point2D.from_pair (t : ℝ × ℝ) : Point2D := ⟨t.1, t.2⟩

/-- Point2D.as_tuple: the components as a 2-tuple. -/
def Point2D.as_tuple (p : Point2D) : ℝ × ℝ := (p.x, p.y)

/-- Unit system, from onpy.util.misc.UnitSystem. -/
inductive UnitSystem where
  | meter
  | inch
deriving DecidableEq, Repr

/-- Inch-to-meter conversion factor named by the spec. -/
def inchToMeter : ℝ := 0.0254

/-- Modelled from the spec: `Entity._rotate_point` (the entity base class in
onpy/features/entities/base.py is not among the provided sources).  Rotates
`p` about `pivot` by `degrees` degrees, positive counter-clockwise, using the
standard 2-D rotation formula with the degree-to-radian conversion applied
once at the boundary. -/
noncomputable def rotatePoint (p pivot : Point2D) (degrees : ℝ) : Point2D :=
  let θ := degrees * Real.pi / 180
  ⟨pivot.x + (p.x - pivot.x) * Real.cos θ - (p.y - pivot.y) * Real.sin θ,
   pivot.y + (p.x - pivot.x) * Real.sin θ + (p.y - pivot.y) * Real.cos θ⟩

/-- Domain error raised for geometrically invalid transform parameters. -/
inductive DomainError where
  | degenerateMirrorLine
deriving DecidableEq, Repr

open Classical in
/-- Modelled from the spec: `Entity._mirror_point` (entity base class not
among the provided sources).  Reflects `p` across the infinite line through
`a` and `b`; a zero-length mirror line is rejected with a domain error, as
the spec requires ("mirror line of zero length - reject with a domain
error"). -/
noncomputable def mirrorPoint (p a b : Point2D) : Except DomainError Point2D :=
  let dx := b.x - a.x
  let dy := b.y - a.y
  if dx ^ 2 + dy ^ 2 = 0 then
    .error .degenerateMirrorLine
  else
    let t := ((p.x - a.x) * dx + (p.y - a.y) * dy) / (dx ^ 2 + dy ^ 2)
    .ok ⟨2 * (a.x + t * dx) - p.x, 2 * (a.y + t * dy) - p.y⟩

/-- Total companion of `mirrorPoint` on non-degenerate lines: the reflection
of `p` across the line through `a` and `b`. -/
noncomputable def reflectPoint (p a b : Point2D) : Point2D :=
  let dx := b.x - a.x
  let dy := b.y - a.y
  let t := ((p.x - a.x) * dx + (p.y - a.y) * dy) / (dx ^ 2 + dy ^ 2)
  ⟨2 * (a.x + t * dx) - p.x, 2 * (a.y + t * dy) - p.y⟩

/-- Modelled from the spec: `math.atan2`, via the complex argument. -/
noncomputable def atan2 (y x : ℝ) : ℝ := Complex.arg ⟨x, y⟩

/-!
Entity identity.  `Entity.generate_entity_id` lives in the entity base class,
which is not among the provided sources.  Modelled from the spec: it draws a
globally fresh identifier ("must not collide across the lifetime of a running
process"); we model the supply of fresh identifiers as a monotone counter
threaded explicitly through every construction, so that an identifier is
fresh exactly when it is at least the current counter value.
-/

/-- State of the fresh-identifier supply: the next unused identifier. -/
abbrev IdSupply := Nat

/-- SketchCircle from onpy/features/entities/sketch_entities.py: radius,
center, units, direction vector and clockwise flag, plus the construction-time
entity id. -/
structure SketchCircle where
  radius : ℝ
  center : Point2D
  units : UnitSystem
  dir : Point2D
  clockwise : Bool
  entity_id : Nat

/-- SketchCircle.__init__: stores the parameters unchanged (dir through
Point2D.from_pair) and draws a fresh entity id. -/
noncomputable def SketchCircle.make (radius : ℝ) (center : Point2D) (units : UnitSystem)
    (dir : ℝ × ℝ) (clockwise : Bool) (st : IdSupply) : SketchCircle × IdSupply :=
  (⟨radius, center, units, Point2D.from_pair dir, clockwise, st⟩, st + 1)

/-- SketchCircle.rotate: rotates the center about the origin point and
constructs a new circle with the remaining fields carried over. -/
noncomputable def SketchCircle.rotate (c : SketchCircle) (origin : ℝ × ℝ) (theta : ℝ)
    (st : IdSupply) : SketchCircle × IdSupply :=
  let new_center := rotatePoint c.center (Point2D.from_pair origin) theta
  SketchCircle.make c.radius new_center c.units c.dir.as_tuple c.clockwise st

/-- SketchCircle.translate: shifts the center, carries every other field. -/
noncomputable def SketchCircle.translate (c : SketchCircle) (x y : ℝ)
    (st : IdSupply) : SketchCircle × IdSupply :=
  let new_center : Point2D := ⟨c.center.x + x, c.center.y + y⟩
  SketchCircle.make c.radius new_center c.units c.dir.as_tuple c.clockwise st

/-- SketchCircle.mirror: reflects the center across the line through the two
given points, constructing a new circle. -/
noncomputable def SketchCircle.mirror (c : SketchCircle) (line_start line_end : ℝ × ℝ)
    (st : IdSupply) : Except DomainError (SketchCircle × IdSupply) :=
  let mirror_start := Point2D.from_pair line_start
  let mirror_end := Point2D.from_pair line_end
  (mirrorPoint c.center mirror_start mirror_end).map fun new_center =>
    SketchCircle.make c.radius new_center c.units c.dir.as_tuple c.clockwise st

/-- SketchLine from onpy/features/entities/sketch_entities.py: endpoints,
units, derived length and unit direction, plus the entity id. -/
structure SketchLine where
  start : Point2D
  end_ : Point2D
  units : UnitSystem
  length : ℝ
  dir : Point2D
  entity_id : Nat

/-- SketchLine.__init__: stores the endpoints unchanged and derives length
(Euclidean distance) and unit direction (atan2-normalized) from them. -/
noncomputable def SketchLine.make (start_point end_point : Point2D) (units : UnitSystem)
    (st : IdSupply) : SketchLine × IdSupply :=
  let dx := end_point.x - start_point.x
  let dy := end_point.y - start_point.y
  let length := Real.sqrt (dx ^ 2 + dy ^ 2)
  let theta := atan2 dy dx
  let unit_direction : Point2D := ⟨Real.cos theta, Real.sin theta⟩
  (⟨start_point, end_point, units, |length|, unit_direction, st⟩, st + 1)

/-- SketchLine.rotate: rotates both endpoints about the origin point. -/
noncomputable def SketchLine.rotate (l : SketchLine) (origin : ℝ × ℝ) (theta : ℝ)
    (st : IdSupply) : SketchLine × IdSupply :=
  let new_start := rotatePoint l.start (Point2D.from_pair origin) theta
  let new_end := rotatePoint l.end_ (Point2D.from_pair origin) theta
  SketchLine.make new_start new_end l.units st

/-- SketchLine.mirror: reflects both endpoints across the mirror line. -/
noncomputable def SketchLine.mirror (l : SketchLine) (line_start line_end : ℝ × ℝ)
    (st : IdSupply) : Except DomainError (SketchLine × IdSupply) := do
  let mirror_start := Point2D.from_pair line_start
  let mirror_end := Point2D.from_pair line_end
  let new_start ← mirrorPoint l.start mirror_start mirror_end
  let new_end ← mirrorPoint l.end_ mirror_start mirror_end
  pure (SketchLine.make new_start new_end l.units st)

/-- SketchLine.translate: shifts both endpoints. -/
noncomputable def SketchLine.translate (l : SketchLine) (x y : ℝ)
    (st : IdSupply) : SketchLine × IdSupply :=
  let new_start : Point2D := ⟨l.start.x + x, l.start.y + y⟩
  let new_end : Point2D := ⟨l.end_.x + x, l.end_.y + y⟩
  SketchLine.make new_start new_end l.units st

/-- SketchArc from onpy/features/entities/sketch_entities.py: radius, center,
theta interval (radians), units, direction tuple, clockwise flag, entity
id.  Note the source stores `dir` as a raw tuple for arcs. -/
structure SketchArc where
  radius : ℝ
  center : Point2D
  theta_interval : ℝ × ℝ
  units : UnitSystem
  dir : ℝ × ℝ
  clockwise : Bool
  entity_id : Nat

/-- SketchArc.__init__: stores all parameters unchanged and draws a fresh
entity id. -/
noncomputable def SketchArc.make (radius : ℝ) (center : Point2D) (theta_interval : ℝ × ℝ)
    (units : UnitSystem) (dir : ℝ × ℝ) (clockwise : Bool)
    (st : IdSupply) : SketchArc × IdSupply :=
  (⟨radius, center, theta_interval, units, dir, clockwise, st⟩, st + 1)

/-- Start point of the arc, as computed inside SketchArc.rotate and
SketchArc.mirror: the point of the circle at the interval's lower angle. -/
noncomputable def SketchArc.startPoint (a : SketchArc) : Point2D :=
  ⟨a.radius * Real.cos a.theta_interval.1 + a.center.x,
   a.radius * Real.sin a.theta_interval.1 + a.center.y⟩

/-- SketchArc.translate: shifts the center; the theta interval, radius, dir
and clockwise flag are carried over unchanged. -/
noncomputable def SketchArc.translate (a : SketchArc) (x y : ℝ)
    (st : IdSupply) : SketchArc × IdSupply :=
  let new_center : Point2D := ⟨a.center.x + x, a.center.y + y⟩
  SketchArc.make a.radius new_center a.theta_interval a.units a.dir a.clockwise st

/-- SketchArc.rotate: rotates the center and the start point, then
re-derives the start angle as the arc-cosine of the normalized dot product of
the rotated start vector with the +x axis, preserving the interval width. -/
noncomputable def SketchArc.rotate (a : SketchArc) (origin : ℝ × ℝ) (theta : ℝ)
    (st : IdSupply) : SketchArc × IdSupply :=
  let pivot := Point2D.from_pair origin
  let start_point := a.startPoint
  let new_center := rotatePoint a.center pivot theta
  let start_point2 := rotatePoint start_point pivot theta
  let d_theta := a.theta_interval.2 - a.theta_interval.1
  let vx := start_point2.x - new_center.x
  let vy := start_point2.y - new_center.y
  let angle_start := Real.arccos ((vx * 1 + vy * 0) / Real.sqrt (vx ^ 2 + vy ^ 2))
  let new_theta := (angle_start, angle_start + d_theta)
  SketchArc.make a.radius new_center new_theta a.units a.dir a.clockwise st

/-- SketchArc.mirror: mirrors the start point and the center, derives an
angle offset as twice the arc-cosine of the normalized dot product of the
mirrored start vector with the mirror-line vector, and shifts the interval
down by that offset while preserving its width. -/
noncomputable def SketchArc.mirror (a : SketchArc) (line_start line_end : ℝ × ℝ)
    (st : IdSupply) : Except DomainError (SketchArc × IdSupply) := do
  let mirror_start := Point2D.from_pair line_start
  let mirror_end := Point2D.from_pair line_end
  let start_point ← mirrorPoint a.startPoint mirror_start mirror_end
  let new_center ← mirrorPoint a.center mirror_start mirror_end
  let avx := start_point.x - new_center.x
  let avy := start_point.y - new_center.y
  let mvx := mirror_end.x - mirror_start.x
  let mvy := mirror_end.y - mirror_start.y
  let angle_offset := 2 * Real.arccos ((avx * mvx + avy * mvy) /
    (Real.sqrt (avx ^ 2 + avy ^ 2) * Real.sqrt (mvx ^ 2 + mvy ^ 2)))
  let d_theta := a.theta_interval.2 - a.theta_interval.1
  let new_theta := (a.theta_interval.1 - angle_offset - d_theta,
    a.theta_interval.1 - angle_offset)
  pure (SketchArc.make a.radius new_center new_theta a.units a.dir a.clockwise st)

/-!
Transport records, from onpy.api.model (SketchCurveEntity is present in the
provided model.py; SketchCurveSegmentEntity is reconstructed from its two
call sites).
-/

/-- A JSON-like value as stored in a geometry mapping. -/
inductive JsonVal where
  | str (s : String)
  | num (x : ℝ)
  | bool (b : Bool)

/-- model.SketchCurveEntity: geometry mapping plus center and entity
sub-ids. -/
structure SketchCurveEntity where
  geometry : List (String × JsonVal)
  centerId : String
  entityId : String

/-- Modelled from the spec: model.SketchCurveSegmentEntity (the onpy
api/model.py is not among the provided sources); carries the fields the two
to_model call sites populate, with centerId optional since SketchLine omits
it. -/
structure SketchCurveSegmentEntity where
  entityId : String
  startPointId : String
  endPointId : String
  startParam : ℝ
  endParam : ℝ
  centerId : Option String
  geometry : List (String × JsonVal)

/-- SketchCircle.to_model: serialization-ready record; the geometry mapping
always includes the clockwise flag. -/
noncomputable def SketchCircle.to_model (c : SketchCircle) : SketchCurveEntity :=
  { geometry :=
      [ ("btType", .str "BTCurveGeometryCircle-115"),
        ("radius", .num c.radius),
        ("xcenter", .num c.center.x),
        ("ycenter", .num c.center.y),
        ("xdir", .num c.dir.x),
        ("ydir", .num c.dir.y),
        ("clockwise", .bool c.clockwise) ],
    centerId := toString c.entity_id ++ ".center",
    entityId := toString c.entity_id }

/-- SketchLine.to_model: segment record parameterized from 0 to the line's
length, with line geometry coefficients. -/
noncomputable def SketchLine.to_model (l : SketchLine) : SketchCurveSegmentEntity :=
  { entityId := toString l.entity_id,
    startPointId := toString l.entity_id ++ ".start",
    endPointId := toString l.entity_id ++ ".end",
    startParam := 0,
    endParam := l.length,
    centerId := none,
    geometry :=
      [ ("btType", .str "BTCurveGeometryLine-117"),
        ("pntX", .num l.start.x),
        ("pntY", .num l.start.y),
        ("dirX", .num l.dir.x),
        ("dirY", .num l.dir.y) ] }

/-- SketchArc.to_model: segment record parameterized over the theta
interval, with circle geometry coefficients; the geometry mapping carries no
clockwise entry. -/
noncomputable def SketchArc.to_model (a : SketchArc) : SketchCurveSegmentEntity :=
  { startPointId := toString a.entity_id ++ ".start",
    endPointId := toString a.entity_id ++ ".end",
    startParam := a.theta_interval.1,
    endParam := a.theta_interval.2,
    centerId := some (toString a.entity_id ++ ".center"),
    entityId := toString a.entity_id,
    geometry :=
      [ ("btType", .str "BTCurveGeometryCircle-115"),
        ("radius", .num a.radius),
        ("xcenter", .num a.center.x),
        ("ycenter", .num a.center.y),
        ("xdir", .num a.dir.1),
        ("ydir", .num a.dir.2) ] }

/-!
Entity filter engine, from onpy/entities/filter.py.  Query-result entities
(onpy.entities.Entity and its variants) are a different class hierarchy from
the sketch entities above: they wrap an evaluator-assigned transient id and a
runtime variant (generic entity, face, ...).
-/

/-- Runtime variant of a query-result entity class (onpy.entities). -/
inductive EVariant where
  | entityBase
  | faceEntity
deriving DecidableEq, Repr

/-- Query-result entity: wraps the transient id assigned by the remote
evaluator; `variant` records which entity class was instantiated. -/
structure Entity where
  variant : EVariant
  transient_id : String
deriving DecidableEq, Repr

/-- Python runtime value that can appear as the generic argument recovered
from an EntityFilter instance's `__orig_class__`: an uninstantiated type
variable, an entity class, or some other callable (a non-Entity class). -/
inductive PyTypeObj where
  | typeVar
  | cls (v : EVariant)
  | otherCallable
deriving DecidableEq, Repr

/-- Python `callable`: type variables are not callable, classes are. -/
def isCallable : PyTypeObj → Bool
  | .typeVar => false
  | _ => true

/-- Python exceptions that the filter engine can raise. -/
inductive PyError where
  | runtimeError (msg : String)
  | attributeError
  | assertionError
deriving DecidableEq, Repr

/-- EntityFilter._entity_type: reads `__orig_class__.__args__[0]` (raising
AttributeError when the instance has no `__orig_class__`), falls back to the
generic Entity class when the argument is not callable, then asserts the
result is an Entity subclass (raising AssertionError otherwise). -/
def entityTypeOf : Option PyTypeObj → Except PyError EVariant
  | none => .error .attributeError
  | some t =>
    let etype := if isCallable t then t else .cls .entityBase
    match etype with
    | .cls v => .ok v
    | _ => .error .assertionError

/-- Owning feature as seen by the filter: document id, default workspace id,
part-studio element id, and the client's active unit system. -/
structure Feature where
  documentId : String
  workspaceId : String
  partstudioId : Option String
  clientUnits : UnitSystem
deriving DecidableEq, Repr

/-- EntityFilter: the owning feature, the generic-argument metadata the
Python runtime would report for the instance, and the ordered working set. -/
structure EntityFilter where
  feature : Feature
  origArg : Option PyTypeObj
  available : List Entity
deriving DecidableEq, Repr

/-- One item of the evaluator response's result["value"] list: a dict with a
"value" key holding a transient id. -/
structure FsVal where
  value : String
deriving DecidableEq, Repr

/-- Parsed successful evaluator response body (result dict). -/
structure FsResult where
  value : List FsVal
deriving DecidableEq, Repr

/-!
Typed query intents, from onpy/entities/queries.py (not among the provided
sources).
-/

/-- Modelled from the spec: the typed query-intent objects of
onpy.entities.queries (qContainsPoint, qClosestTo, qLargest, qSmallest,
qIntersectsLine, qEntityType); point coordinates are taken as exact
rationals. -/
inductive QueryType where
  | qContainsPoint (point : ℚ × ℚ × ℚ) (units : UnitSystem)
  | qClosestTo (point : ℚ × ℚ × ℚ) (units : UnitSystem)
  | qLargest
  | qSmallest
  | qIntersectsLine (line_origin line_direction : ℚ × ℚ × ℚ) (units : UnitSystem)
  | qEntityType (v : EVariant)
deriving DecidableEq, Repr

/-- Modelled from the spec: boundary unit conversion applied by the
query-fragment compiler before emission (inch to meter factor 0.0254). -/
def convUnits (u : UnitSystem) (x : ℚ) : ℚ :=
  match u with
  | .meter => x
  | .inch => x * (127 / 5000)

/-- Modelled from the spec: render a 3-vector fragment in the evaluator's
canonical length unit. -/
def vec3Fs (u : UnitSystem) (p : ℚ × ℚ × ℚ) : String :=
  "vector([" ++ toString (convUnits u p.1) ++ ", " ++ toString (convUnits u p.2.1) ++
    ", " ++ toString (convUnits u p.2.2) ++ "])"

/-- Modelled from the spec: each query intent owns exactly one pure
fragment-emission function, composing with the union query named by `base`. -/
def QueryType.injectFeaturescript : QueryType → String → String
  | .qContainsPoint p u, base => "qContainsPoint(" ++ base ++ ", " ++ vec3Fs u p ++ ")"
  | .qClosestTo p u, base => "qClosestTo(" ++ base ++ ", " ++ vec3Fs u p ++ ")"
  | .qLargest, base => "qLargest(" ++ base ++ ")"
  | .qSmallest, base => "qSmallest(" ++ base ++ ")"
  | .qIntersectsLine o d u, base =>
      "qIntersectsLine(" ++ base ++ ", " ++ vec3Fs u o ++ ", " ++ vec3Fs u d ++ ")"
  | .qEntityType v, base =>
      "qEntityFilter(" ++ base ++ ", EntityType." ++
        (match v with | .entityBase => "ALL" | .faceEntity => "FACE") ++ ")"

/-!
Script compilation.  EntityFilter._apply_query builds its featurescript as
`dedent(f"""...""")`.  We embed the template at line granularity (every
interpolated value - a transient id or a query fragment - is a single-line
string), as lists of characters, and implement textwrap.dedent over them:
whitespace-only lines are blanked, the margin is the longest common prefix of
the leading whitespace of the remaining lines, and the margin is stripped
from every line it prefixes.
-/

/-- Space or tab, the characters the dedent margin is made of. -/
def isWs (c : Char) : Bool := c = ' ' || c = '\t'

/-- textwrap.dedent first phase: lines consisting solely of whitespace are
normalized to the empty line. -/
def blankWs (l : List Char) : List Char := if l.all isWs then [] else l

/-- Leading whitespace of a line that has visible content; `none` for lines
with no visible content (they do not participate in margin computation). -/
def indentOf (l : List Char) : Option (List Char) :=
  let i := l.takeWhile isWs
  if i.length = l.length then none else some i

/-- Longest common prefix of two character lists. -/
def lcp : List Char → List Char → List Char
  | a :: as, b :: bs => if a = b then a :: lcp as bs else []
  | _, _ => []

/-- One step of textwrap.dedent's margin folding. -/
def marginStep (m : Option (List Char)) (l : List Char) : Option (List Char) :=
  match indentOf l with
  | none => m
  | some i =>
    match m with
    | none => some i
    | some mm => some (lcp mm i)

/-- textwrap.dedent margin: fold of longest-common-prefix over the leading
whitespace of all lines with visible content. -/
def marginOf (ls : List (List Char)) : Option (List Char) :=
  ls.foldl marginStep none

/-- Strip the margin from a line it prefixes; other lines are unchanged. -/
def stripMargin (m l : List Char) : List Char :=
  if m.isPrefixOf l then l.drop m.length else l

/-- textwrap.dedent at line granularity. -/
def dedentL (ls : List (List Char)) : List (List Char) :=
  let ls2 := ls.map blankWs
  match marginOf ls2 with
  | none => ls2
  | some m => ls2.map (stripMargin m)

/-- Join lines with newline separators (inverse of splitting on newline). -/
def joinNL : List (List Char) → List Char
  | [] => []
  | [l] => l
  | l :: ls => l ++ '\n' :: joinNL ls

/-- The single-quote character used by Python's repr of a plain string. -/
def squoteChar : Char := Char.ofNat 39

/-- Python str() of a list of plain strings, as interpolated by the f-string
of _apply_query: elements rendered in single quotes, separated by ", ",
enclosed in square brackets. -/
def pyListReprC (ids : List String) : List Char :=
  '[' :: (List.intercalate [',', ' ']
    (ids.map fun t => squoteChar :: (t.data ++ [squoteChar]))) ++ [']']

/-- The lines of the f-string template of EntityFilter._apply_query, with the
two interpolations filled in: the str() of the working set's transient-id
list, and the injected query fragment. -/
def scriptLinesC (tids : List String) (frag : String) : List (List Char) :=
  [ "".data,
    "                      ".data,
    "        function(context is Context, queries)\x7b   ".data,
    "".data,
    "            // Combine all transient ids into one query".data,
    "            const transient_ids = ".data ++ pyListReprC tids ++ ";".data,
    "            var element_queries is array = makeArray(size(transient_ids));".data,
    "            ".data,
    "            var idx = 0;".data,
    "            for (var tid in transient_ids)".data,
    "            \x7b".data,
    "                var query = \x7b \"queryType\" : QueryType.TRANSIENT, \"transientId\" : tid \x7d as Query;".data,
    "                element_queries[idx] = query;".data,
    "                idx += 1;".data,
    "            \x7d".data,
    "            ".data,
    "            var cumulative_query = qUnion(element_queries);".data,
    "            ".data,
    "            // Apply specific query".data,
    "            var specific_query = ".data ++ frag.data ++ ";".data,
    "            var matching_entities = evaluateQuery(context, specific_query);".data,
    "            return transientQueriesToStrings(matching_entities);".data,
    "            ".data,
    "        \x7d".data,
    "".data,
    "        ".data ]

/-- The compiled featurescript of EntityFilter._apply_query:
`dedent(f"""...""")` over the template above. -/
def buildFsScript (tids : List String) (frag : String) : String :=
  ⟨joinNL (dedentL (scriptLinesC tids frag))⟩

/-- The script _apply_query submits for a given query on a given filter. -/
def EntityFilter.scriptFor (f : EntityFilter) (q : QueryType) : String :=
  buildFsScript (f.available.map Entity.transient_id)
    (q.injectFeaturescript "cumulative_query")

/-- Outcome of one _apply_query call: the raised-or-returned result, plus the
list of scripts submitted to the remote evaluator during the call. -/
structure QueryRun where
  result : Except PyError (List Entity)
  calls : List String
deriving Repr

/-- EntityFilter._apply_query: compile the script, submit it once to the
remote evaluator `ev`, unwrap the response's result field (raising, with the
script text in the message, when it is absent - `unwrap` from onpy.util.misc
is modelled from the spec: it raises with the supplied message on a missing
value), then rehydrate each returned transient id through the resolved
element type. -/
def EntityFilter.applyQuery (f : EntityFilter) (q : QueryType)
    (ev : String → Option FsResult) : QueryRun :=
  let script := f.scriptFor q
  match ev script with
  | none =>
    ⟨.error (.runtimeError
      ("Query raised error when evaluating fs. Script:\n\n" ++ script)), [script]⟩
  | some res =>
    let tids := res.value.map FsVal.value
    ⟨tids.mapM (fun tid => (entityTypeOf f.origArg).map (fun v => Entity.mk v tid)),
      [script]⟩

/-- Outcome of one public filter operation: the receiving filter after the
call (the source method bodies never assign to self, so the translation
returns it as-is), the new filter or raised error, and the submitted
scripts. -/
structure OpRun where
  selfAfter : EntityFilter
  result : Except PyError EntityFilter
  calls : List String
deriving Repr

/-- EntityFilter.contains_point: build a qContainsPoint intent with the
client's units, apply it, and wrap the result in a new EntityFilter[T]
(the runtime generic argument of the new instance is the class type
variable). -/
def EntityFilter.contains_point (f : EntityFilter) (point : ℚ × ℚ × ℚ)
    (ev : String → Option FsResult) : OpRun :=
  let q := QueryType.qContainsPoint point f.feature.clientUnits
  let run := f.applyQuery q ev
  ⟨f, run.result.map (fun avail => ⟨f.feature, some .typeVar, avail⟩), run.calls⟩

/-- EntityFilter.closest_to. -/
def EntityFilter.closest_to (f : EntityFilter) (point : ℚ × ℚ × ℚ)
    (ev : String → Option FsResult) : OpRun :=
  let q := QueryType.qClosestTo point f.feature.clientUnits
  let run := f.applyQuery q ev
  ⟨f, run.result.map (fun avail => ⟨f.feature, some .typeVar, avail⟩), run.calls⟩

/-- EntityFilter.largest. -/
def EntityFilter.largest (f : EntityFilter)
    (ev : String → Option FsResult) : OpRun :=
  let run := f.applyQuery .qLargest ev
  ⟨f, run.result.map (fun avail => ⟨f.feature, some .typeVar, avail⟩), run.calls⟩

/-- EntityFilter.smallest. -/
def EntityFilter.smallest (f : EntityFilter)
    (ev : String → Option FsResult) : OpRun :=
  let run := f.applyQuery .qSmallest ev
  ⟨f, run.result.map (fun avail => ⟨f.feature, some .typeVar, avail⟩), run.calls⟩

/-- EntityFilter.intersects. -/
def EntityFilter.intersects (f : EntityFilter) (origin direction : ℚ × ℚ × ℚ)
    (ev : String → Option FsResult) : OpRun :=
  let q := QueryType.qIntersectsLine origin direction f.feature.clientUnits
  let run := f.applyQuery q ev
  ⟨f, run.result.map (fun avail => ⟨f.feature, some .typeVar, avail⟩), run.calls⟩

/-- EntityFilter.is_type: apply a qEntityType intent, then re-wrap every
resulting transient id in the requested entity class. -/
def EntityFilter.is_type (f : EntityFilter) (entity_type : EVariant)
    (ev : String → Option FsResult) : OpRun :=
  let q := QueryType.qEntityType entity_type
  let run := f.applyQuery q ev
  ⟨f, run.result.map (fun res =>
      ⟨f.feature, some .typeVar, res.map (fun e => Entity.mk entity_type e.transient_id)⟩),
    run.calls⟩

/-- The six public filter operations, as one indexed family (used to state
properties uniformly over all of them). -/
inductive FilterOp where
  | containsPoint (point : ℚ × ℚ × ℚ)
  | closestTo (point : ℚ × ℚ × ℚ)
  | largest
  | smallest
  | intersects (origin direction : ℚ × ℚ × ℚ)
  | isType (v : EVariant)
deriving DecidableEq, Repr

/-- The query intent each public operation builds, as a function of the
client's unit system (mirrors the first line of each method body). -/
def FilterOp.queryOf : FilterOp → UnitSystem → QueryType
  | .containsPoint p, u => .qContainsPoint p u
  | .closestTo p, u => .qClosestTo p u
  | .largest, _ => .qLargest
  | .smallest, _ => .qSmallest
  | .intersects o d, u => .qIntersectsLine o d u
  | .isType v, _ => .qEntityType v

/-- Dispatch a FilterOp to the corresponding public method. -/
def EntityFilter.runOp (f : EntityFilter) (op : FilterOp)
    (ev : String → Option FsResult) : OpRun :=
  match op with
  | .containsPoint p => f.contains_point p ev
  | .closestTo p => f.closest_to p ev
  | .largest => f.largest ev
  | .smallest => f.smallest ev
  | .intersects o d => f.intersects o d ev
  | .isType v => f.is_type v ev

/-- The working-set variant each operation's new filter carries: the
requested class for is_type, the generic Entity fallback otherwise. -/
def FilterOp.resultVariant : FilterOp → EVariant
  | .isType v => v
  | _ => .entityBase

/-- Uniform description of each operation's rehydrated working set: the
entities _apply_query produced, re-wrapped in the requested class by is_type
and taken as-is by every other operation. -/
def FilterOp.rewrap : FilterOp → List Entity → List Entity
  | .isType v, avail => avail.map (fun e => Entity.mk v e.transient_id)
  | _, avail => avail

/-- The interpolated transient-id list, in context: the exact text fragment
`const transient_ids = <python list>;` that the compiled script carries. -/
def unionIdsText (tids : List String) : List Char :=
  "const transient_ids = ".data ++ pyListReprC tids ++ ";".data

/-!
Sample concrete inputs used by witnesses and counterexamples.
-/

/-- A concrete circle: radius 1 at the origin, id 0. -/
noncomputable def sampleCircle : SketchCircle := ⟨1, ⟨0, 0⟩, .meter, ⟨1, 0⟩, false, 0⟩

/-- A concrete line segment from the origin to (1,0), id 0. -/
noncomputable def sampleLine : SketchLine := ⟨⟨0, 0⟩, ⟨1, 0⟩, .meter, 1, ⟨1, 0⟩, 0⟩

/-- A concrete arc: radius 1 at the origin over [0,1], id 0. -/
noncomputable def sampleArc : SketchArc := ⟨1, ⟨0, 0⟩, (0, 1), .meter, (1, 0), false, 0⟩

/-- A concrete arc whose theta interval starts at -pi/2 (radius 1, centered
at the origin), used to exhibit the arc-cosine sign loss in SketchArc.rotate. -/
noncomputable def cexArc : SketchArc := ⟨1, ⟨0, 0⟩, (-(Real.pi / 2), 0), .meter, (1, 0), false, 0⟩

/-- cexArc rotated by 0 degrees and then by the inverse rotation (-0 degrees)
about the same origin. -/
noncomputable def cexArcRoundTrip : SketchArc :=
  ((cexArc.rotate (0, 0) 0 1).1.rotate (0, 0) (-0) 2).1

/-- A concrete owning feature. -/
def sampleFeature : Feature := ⟨"doc1", "wsp1", some "elem1", .meter⟩

/-- A concrete filter over two entities, with the runtime generic argument a
type variable (as produced by every filter operation). -/
def sampleFilter : EntityFilter :=
  ⟨sampleFeature, some .typeVar, [⟨.entityBase, "t1"⟩, ⟨.entityBase, "t2"⟩]⟩

/-- An evaluator that always succeeds with one transient id "t9". -/
def evOk : String → Option FsResult := fun _ => some ⟨[⟨"t9"⟩]⟩

/-- An evaluator that always reports failure (absent result field). -/
def evNone : String → Option FsResult := fun _ => none

/-- A filter whose recovered generic argument is a callable that is not an
Entity subclass. -/
def cexFilter : EntityFilter := ⟨sampleFeature, some .otherCallable, [⟨.entityBase, "t1"⟩]⟩

/-!
Helper lemmas about the point transforms.
-/

theorem Point2D.ext_xy {p q : Point2D} (hx : p.x = q.x) (hy : p.y = q.y) : p = q := by
  cases p; cases q; simp_all

@[simp] theorem Point2D.from_pair_as_tuple (p : Point2D) :
    Point2D.from_pair p.as_tuple = p := rfl

theorem mirrorPoint_eq_ok (p a b : Point2D)
    (h : (b.x - a.x) ^ 2 + (b.y - a.y) ^ 2 ≠ 0) :
    mirrorPoint p a b = .ok (reflectPoint p a b) := by
  unfold mirrorPoint
  rw [if_neg h]
  rfl

theorem mirrorPoint_self_error (q p : Point2D) :
    mirrorPoint q p p = .error .degenerateMirrorLine := by
  unfold mirrorPoint
  rw [if_pos (by ring)]

theorem rotatePoint_neg (p o : Point2D) (θ : ℝ) :
    rotatePoint (rotatePoint p o θ) o (-θ) = p := by
  unfold rotatePoint
  have h := Real.sin_sq_add_cos_sq (θ * Real.pi / 180)
  apply Point2D.ext_xy
  · dsimp only
    rw [show (-θ) * Real.pi / 180 = -(θ * Real.pi / 180) by ring, Real.cos_neg, Real.sin_neg]
    linear_combination (p.x - o.x) * h
  · dsimp only
    rw [show (-θ) * Real.pi / 180 = -(θ * Real.pi / 180) by ring, Real.cos_neg, Real.sin_neg]
    linear_combination (p.y - o.y) * h

theorem reflectPoint_invol (p a b : Point2D)
    (h : (b.x - a.x) ^ 2 + (b.y - a.y) ^ 2 ≠ 0) :
    reflectPoint (reflectPoint p a b) a b = p := by
  unfold reflectPoint
  apply Point2D.ext_xy
  · dsimp only
    field_simp
    ring
  · dsimp only
    field_simp
    ring

/-!
Field-level reductions for transform results (all definitional), and the
success forms of the mirror operations on non-degenerate lines.
-/

@[simp] theorem circle_rotate_fst (c : SketchCircle) (o : ℝ × ℝ) (θ : ℝ)
    (st : IdSupply) :
    (c.rotate o θ st).1 =
      ⟨c.radius, rotatePoint c.center (Point2D.from_pair o) θ, c.units, c.dir,
        c.clockwise, st⟩ := rfl

@[simp] theorem circle_translate_fst (c : SketchCircle) (x y : ℝ)
    (st : IdSupply) :
    (c.translate x y st).1 =
      ⟨c.radius, ⟨c.center.x + x, c.center.y + y⟩, c.units, c.dir, c.clockwise, st⟩ := rfl

theorem circle_mirror_ok (c : SketchCircle) (p q : ℝ × ℝ) (st : IdSupply)
    (h : (q.1 - p.1) ^ 2 + (q.2 - p.2) ^ 2 ≠ 0) :
    c.mirror p q st =
      .ok (⟨c.radius, reflectPoint c.center (Point2D.from_pair p) (Point2D.from_pair q),
        c.units, c.dir, c.clockwise, st⟩, st + 1) := by
  unfold SketchCircle.mirror
  dsimp only
  rw [mirrorPoint_eq_ok _ _ _ h]
  rfl

@[simp] theorem line_rotate_fields (l : SketchLine) (o : ℝ × ℝ) (θ : ℝ)
    (st : IdSupply) :
    (l.rotate o θ st).1.start = rotatePoint l.start (Point2D.from_pair o) θ ∧
      (l.rotate o θ st).1.end_ = rotatePoint l.end_ (Point2D.from_pair o) θ :=
  ⟨rfl, rfl⟩

@[simp] theorem line_translate_fields (l : SketchLine) (x y : ℝ)
    (st : IdSupply) :
    (l.translate x y st).1.start = ⟨l.start.x + x, l.start.y + y⟩ ∧
      (l.translate x y st).1.end_ = ⟨l.end_.x + x, l.end_.y + y⟩ :=
  ⟨rfl, rfl⟩

theorem line_mirror_ok (l : SketchLine) (p q : ℝ × ℝ) (st : IdSupply)
    (h : (q.1 - p.1) ^ 2 + (q.2 - p.2) ^ 2 ≠ 0) :
    l.mirror p q st =
      .ok (SketchLine.make (reflectPoint l.start (Point2D.from_pair p) (Point2D.from_pair q))
        (reflectPoint l.end_ (Point2D.from_pair p) (Point2D.from_pair q)) l.units st) := by
  unfold SketchLine.mirror
  dsimp only
  rw [mirrorPoint_eq_ok _ _ _ h, mirrorPoint_eq_ok _ _ _ h]
  rfl

@[simp] theorem arc_translate_fst (a : SketchArc) (x y : ℝ) (st : IdSupply) :
    (a.translate x y st).1 =
      ⟨a.radius, ⟨a.center.x + x, a.center.y + y⟩, a.theta_interval, a.units, a.dir,
        a.clockwise, st⟩ := rfl

/-- C6: for every entity (circle, line segment, arc) and every mirror call
whose two line points are equal, the mirror operation rejects the input
synchronously with a domain error instead of producing a result. -/
theorem mirror_zero_length_rejected (c : SketchCircle) (l : SketchLine) (a : SketchArc)
    (p : ℝ × ℝ) (st : IdSupply) :
    c.mirror p p st = .error .degenerateMirrorLine ∧
    l.mirror p p st = .error .degenerateMirrorLine ∧
    a.mirror p p st = .error .degenerateMirrorLine := by
  refine ⟨?_, ?_, ?_⟩
  · unfold SketchCircle.mirror
    dsimp only
    rw [mirrorPoint_self_error]
    rfl
  · unfold SketchLine.mirror
    dsimp only
    rw [mirrorPoint_self_error]
    rfl
  · unfold SketchArc.mirror
    dsimp only
    rw [mirrorPoint_self_error]
    rfl

/-- C9: the start angle of a rotated arc's theta interval is the value of an
arc-cosine, hence always lies in the closed range [0, pi], regardless of
where the rotated start point actually lies (radius positivity reflects the
spec's constructor contract and keeps the arc-cosine argument inside
math.acos's domain). -/
theorem arc_rotate_start_angle_in_acos_range (a : SketchArc) (origin : ℝ × ℝ)
    (theta : ℝ) (st : IdSupply) (hr : 0 < a.radius) :
    0 ≤ (a.rotate origin theta st).1.theta_interval.1 ∧
      (a.rotate origin theta st).1.theta_interval.1 ≤ Real.pi := by
  unfold SketchArc.rotate SketchArc.make
  exact ⟨Real.arccos_nonneg _, Real.arccos_le_pi _⟩

/-- Witness for C9 at a concrete arc and rotation. -/
theorem arc_rotate_start_angle_in_acos_range_witness :
    0 < sampleArc.radius ∧
      (0 ≤ (sampleArc.rotate (2, 3) 45 7).1.theta_interval.1 ∧
        (sampleArc.rotate (2, 3) 45 7).1.theta_interval.1 ≤ Real.pi) :=
  ⟨by norm_num [sampleArc],
   arc_rotate_start_angle_in_acos_range sampleArc (2, 3) 45 7 (by norm_num [sampleArc])⟩

/-- C10: an arc's transport record carries no clockwise entry in its
geometry mapping, while a circle's transport record always carries its
clockwise flag. -/
theorem arc_to_model_omits_clockwise (a : SketchArc) (c : SketchCircle) :
    "clockwise" ∉ a.to_model.geometry.map Prod.fst ∧
      ("clockwise", JsonVal.bool c.clockwise) ∈ c.to_model.geometry := by
  constructor
  · simp [SketchArc.to_model]
  · simp [SketchCircle.to_model]

/-- C3 counterexample: a SketchLine constructed with INCH units and endpoints
(0,0)-(1,0) has length 1 after construction, not 0.0254 - the construction
applies no inch-to-meter conversion. -/
theorem line_inch_length_counterexample :
    (SketchLine.make ⟨0, 0⟩ ⟨1, 0⟩ .inch 0).1.length = 1 ∧ (1 : ℝ) ≠ inchToMeter := by
  constructor
  · show |Real.sqrt (((1 : ℝ) - 0) ^ 2 + ((0 : ℝ) - 0) ^ 2)| = 1
    rw [show ((1 : ℝ) - 0) ^ 2 + ((0 : ℝ) - 0) ^ 2 = 1 by norm_num, Real.sqrt_one, abs_one]
  · norm_num [inchToMeter]

/-- C3 amended: construction stores the endpoints unchanged and derives the
length as the Euclidean distance of the given coordinates; the unit system is
stored but no inch-to-meter factor is applied to the geometry at
construction time (the stored fields are identical under INCH and METER). -/
theorem line_construction_stores_raw_geometry (s e : Point2D) (u : UnitSystem)
    (st : IdSupply) :
    (SketchLine.make s e u st).1.start = s ∧
    (SketchLine.make s e u st).1.end_ = e ∧
    (SketchLine.make s e u st).1.length =
      |Real.sqrt ((e.x - s.x) ^ 2 + (e.y - s.y) ^ 2)| ∧
    (SketchLine.make s e .inch st).1.length = (SketchLine.make s e .meter st).1.length ∧
    (SketchLine.make s e .inch st).1.start = (SketchLine.make s e .meter st).1.start ∧
    (SketchLine.make s e .inch st).1.end_ = (SketchLine.make s e .meter st).1.end_ :=
  ⟨rfl, rfl, rfl, rfl, rfl, rfl⟩

/-- C2 counterexample: rotating cexArc by theta = 0 and then by -theta about
the same origin yields an arc whose interval starts at pi/2 instead of the
original -pi/2, and whose start point is (0,1) instead of (0,-1): the
arc-cosine used to recompute the start angle discards the sign, so
rotate-then-inverse-rotate is not the identity for arcs. -/
theorem arc_rotate_roundtrip_counterexample :
    cexArc.theta_interval.1 = -(Real.pi / 2) ∧
    cexArcRoundTrip.theta_interval.1 = Real.pi / 2 ∧
    cexArcRoundTrip.theta_interval.1 ≠ cexArc.theta_interval.1 ∧
    cexArcRoundTrip.startPoint.y = 1 ∧
    cexArc.startPoint.y = -1 := by
  have h1 : cexArcRoundTrip.theta_interval.1 = Real.pi / 2 := by
    norm_num [cexArcRoundTrip, cexArc, SketchArc.rotate, SketchArc.make,
      SketchArc.startPoint, rotatePoint, Point2D.from_pair, Real.cos_pi_div_two,
      Real.sin_pi_div_two, Real.arccos_zero, Real.sqrt_one]
  refine ⟨rfl, h1, ?_, ?_, ?_⟩
  · rw [h1]
    show Real.pi / 2 ≠ cexArc.theta_interval.1
    have hπ := Real.pi_pos
    simp only [cexArc]
    intro hEq
    nlinarith
  · norm_num [cexArcRoundTrip, cexArc, SketchArc.rotate, SketchArc.make,
      SketchArc.startPoint, rotatePoint, Point2D.from_pair, Real.cos_pi_div_two,
      Real.sin_pi_div_two, Real.arccos_zero, Real.sqrt_one]
  · norm_num [cexArc, SketchArc.startPoint, Real.sin_pi_div_two]

/-- C2 amended: applying a transform and then its inverse restores the
geometry for circles and line segments under all three transforms (rotation
about a common origin by theta then -theta; translation by (x,y) then
(-x,-y); reflection twice across the same non-degenerate line), and for arcs
under translation.  For arcs, rotation (and mirroring) recompute the start
angle through an arc-cosine whose sign ambiguity breaks the round trip, as
the counterexample shows, so arcs are excluded from the rotate and mirror
round trips. -/
theorem transform_inverse_roundtrip (c : SketchCircle) (l : SketchLine) (a : SketchArc)
    (o p q : ℝ × ℝ) (θ x y : ℝ) (s1 s2 : IdSupply)
    (hpq : (q.1 - p.1) ^ 2 + (q.2 - p.2) ^ 2 ≠ 0) :
    (((c.rotate o θ s1).1.rotate o (-θ) s2).1.center = c.center ∧
      ((c.rotate o θ s1).1.rotate o (-θ) s2).1.radius = c.radius ∧
      ((c.rotate o θ s1).1.rotate o (-θ) s2).1.dir = c.dir ∧
      ((c.rotate o θ s1).1.rotate o (-θ) s2).1.clockwise = c.clockwise) ∧
    (((c.translate x y s1).1.translate (-x) (-y) s2).1.center = c.center ∧
      ((c.translate x y s1).1.translate (-x) (-y) s2).1.radius = c.radius ∧
      ((c.translate x y s1).1.translate (-x) (-y) s2).1.dir = c.dir ∧
      ((c.translate x y s1).1.translate (-x) (-y) s2).1.clockwise = c.clockwise) ∧
    (∃ mid, c.mirror p q s1 = .ok mid ∧ ∃ fin2, mid.1.mirror p q s2 = .ok fin2 ∧
      fin2.1.center = c.center ∧ fin2.1.radius = c.radius ∧
      fin2.1.dir = c.dir ∧ fin2.1.clockwise = c.clockwise) ∧
    (((l.rotate o θ s1).1.rotate o (-θ) s2).1.start = l.start ∧
      ((l.rotate o θ s1).1.rotate o (-θ) s2).1.end_ = l.end_) ∧
    (((l.translate x y s1).1.translate (-x) (-y) s2).1.start = l.start ∧
      ((l.translate x y s1).1.translate (-x) (-y) s2).1.end_ = l.end_) ∧
    (∃ mid, l.mirror p q s1 = .ok mid ∧ ∃ fin2, mid.1.mirror p q s2 = .ok fin2 ∧
      fin2.1.start = l.start ∧ fin2.1.end_ = l.end_) ∧
    (((a.translate x y s1).1.translate (-x) (-y) s2).1.center = a.center ∧
      ((a.translate x y s1).1.translate (-x) (-y) s2).1.radius = a.radius ∧
      ((a.translate x y s1).1.translate (-x) (-y) s2).1.theta_interval = a.theta_interval ∧
      ((a.translate x y s1).1.translate (-x) (-y) s2).1.dir = a.dir ∧
      ((a.translate x y s1).1.translate (-x) (-y) s2).1.clockwise = a.clockwise) := by
  refine ⟨⟨?_, rfl, rfl, rfl⟩, ⟨?_, rfl, rfl, rfl⟩, ?_, ⟨?_, ?_⟩, ⟨?_, ?_⟩, ?_, ⟨?_, rfl, rfl, rfl, rfl⟩⟩
  · simp [rotatePoint_neg]
  · simp only [circle_translate_fst]
    exact Point2D.ext_xy (by ring) (by ring)
  · refine ⟨_, circle_mirror_ok c p q s1 hpq, _, circle_mirror_ok _ p q s2 hpq, ?_, rfl, rfl, rfl⟩
    exact reflectPoint_invol c.center _ _ hpq
  · simp [rotatePoint_neg, (line_rotate_fields _ _ _ _).1, (line_rotate_fields _ _ _ _).2]
  · simp [rotatePoint_neg, (line_rotate_fields _ _ _ _).1, (line_rotate_fields _ _ _ _).2]
  · rw [(line_translate_fields _ _ _ _).1, (line_translate_fields _ _ _ _).1]
    exact Point2D.ext_xy (by ring) (by ring)
  · rw [(line_translate_fields _ _ _ _).2, (line_translate_fields _ _ _ _).2]
    exact Point2D.ext_xy (by ring) (by ring)
  · refine ⟨_, line_mirror_ok l p q s1 hpq, _, line_mirror_ok _ p q s2 hpq, ?_, ?_⟩
    · show reflectPoint (reflectPoint l.start _ _) _ _ = l.start
      exact reflectPoint_invol l.start _ _ hpq
    · show reflectPoint (reflectPoint l.end_ _ _) _ _ = l.end_
      exact reflectPoint_invol l.end_ _ _ hpq
  · simp only [arc_translate_fst]
    exact Point2D.ext_xy (by ring) (by ring)

/-- Witness for the C2 amended round-trip theorem at concrete entities, a
concrete rotation angle, translation offsets, and the non-degenerate mirror
line through (0,0) and (1,0). -/
theorem transform_inverse_roundtrip_witness :
    ((((1 : ℝ) - 0) ^ 2 + ((0 : ℝ) - 0) ^ 2 ≠ 0) ∧
      ((sampleCircle.rotate (2, 3) 30 5).1.rotate (2, 3) (-30) 6).1.center =
        sampleCircle.center) := by
  have h : (((1 : ℝ) - 0) ^ 2 + ((0 : ℝ) - 0) ^ 2 ≠ 0) := by norm_num
  exact ⟨h, (transform_inverse_roundtrip sampleCircle sampleLine sampleArc
    (2, 3) (0, 0) (1, 0) 30 7 (-4) 5 6 h).1.1⟩

/-- C4: every transform constructs a new entity drawing a fresh entity id
from the supply, so its entity_id differs from that of any previously
constructed entity, in particular from the receiver's; the supply is
advanced past the new id.  (In this pure embedding the receiver is a value
that the transform cannot mutate; the fresh-id claim is the part with
observable content.) -/
theorem transforms_fresh_entity_id (c : SketchCircle) (l : SketchLine) (a : SketchArc)
    (o p q : ℝ × ℝ) (θ x y : ℝ) (st : IdSupply)
    (hc : c.entity_id < st) (hl : l.entity_id < st) (ha : a.entity_id < st) :
    ((c.rotate o θ st).1.entity_id = st ∧ (c.rotate o θ st).1.entity_id ≠ c.entity_id ∧
      (c.rotate o θ st).2 = st + 1) ∧
    ((c.translate x y st).1.entity_id = st ∧
      (c.translate x y st).1.entity_id ≠ c.entity_id ∧ (c.translate x y st).2 = st + 1) ∧
    (∀ r, c.mirror p q st = .ok r → r.1.entity_id = st ∧ r.1.entity_id ≠ c.entity_id) ∧
    ((l.rotate o θ st).1.entity_id = st ∧ (l.rotate o θ st).1.entity_id ≠ l.entity_id ∧
      (l.rotate o θ st).2 = st + 1) ∧
    ((l.translate x y st).1.entity_id = st ∧
      (l.translate x y st).1.entity_id ≠ l.entity_id ∧ (l.translate x y st).2 = st + 1) ∧
    (∀ r, l.mirror p q st = .ok r → r.1.entity_id = st ∧ r.1.entity_id ≠ l.entity_id) ∧
    ((a.rotate o θ st).1.entity_id = st ∧ (a.rotate o θ st).1.entity_id ≠ a.entity_id ∧
      (a.rotate o θ st).2 = st + 1) ∧
    ((a.translate x y st).1.entity_id = st ∧
      (a.translate x y st).1.entity_id ≠ a.entity_id ∧ (a.translate x y st).2 = st + 1) ∧
    (∀ r, a.mirror p q st = .ok r → r.1.entity_id = st ∧ r.1.entity_id ≠ a.entity_id) := by
  have hcne : st ≠ c.entity_id := (Nat.ne_of_lt hc).symm
  have hlne : st ≠ l.entity_id := (Nat.ne_of_lt hl).symm
  have hane : st ≠ a.entity_id := (Nat.ne_of_lt ha).symm
  refine ⟨⟨rfl, hcne, rfl⟩, ⟨rfl, hcne, rfl⟩, ?_, ⟨rfl, hlne, rfl⟩, ⟨rfl, hlne, rfl⟩, ?_,
    ⟨rfl, hane, rfl⟩, ⟨rfl, hane, rfl⟩, ?_⟩
  · intro r hr
    unfold SketchCircle.mirror at hr
    dsimp only at hr
    cases hmp : mirrorPoint c.center (Point2D.from_pair p) (Point2D.from_pair q) with
    | error e => rw [hmp] at hr; exact absurd hr (by simp [Except.map])
    | ok v =>
      rw [hmp] at hr
      simp only [Except.map] at hr
      cases hr
      exact ⟨rfl, hcne⟩
  · intro r hr
    unfold SketchLine.mirror at hr
    dsimp only at hr
    cases hmp : mirrorPoint l.start (Point2D.from_pair p) (Point2D.from_pair q) with
    | error e => rw [hmp] at hr; exact Except.noConfusion hr
    | ok v =>
      rw [hmp] at hr
      cases hmp2 : mirrorPoint l.end_ (Point2D.from_pair p) (Point2D.from_pair q) with
      | error e =>
        rw [hmp2] at hr
        exact Except.noConfusion hr
      | ok w =>
        rw [hmp2] at hr
        cases hr
        exact ⟨rfl, hlne⟩
  · intro r hr
    unfold SketchArc.mirror at hr
    dsimp only at hr
    cases hmp : mirrorPoint a.startPoint (Point2D.from_pair p) (Point2D.from_pair q) with
    | error e => rw [hmp] at hr; exact Except.noConfusion hr
    | ok v =>
      rw [hmp] at hr
      cases hmp2 : mirrorPoint a.center (Point2D.from_pair p) (Point2D.from_pair q) with
      | error e =>
        rw [hmp2] at hr
        exact Except.noConfusion hr
      | ok w =>
        rw [hmp2] at hr
        cases hr
        exact ⟨rfl, hane⟩

/-- Witness for C4 at concrete entities with entity id 0, supply state 5 and
the non-degenerate mirror line through (0,0) and (1,0). -/
theorem transforms_fresh_entity_id_witness :
    (sampleCircle.entity_id < 5 ∧ sampleLine.entity_id < 5 ∧ sampleArc.entity_id < 5) ∧
    (sampleCircle.rotate (2, 3) 30 5).1.entity_id = 5 ∧
    (sampleCircle.rotate (2, 3) 30 5).1.entity_id ≠ sampleCircle.entity_id := by
  have h5 : sampleCircle.entity_id < 5 ∧ sampleLine.entity_id < 5 ∧ sampleArc.entity_id < 5 :=
    ⟨by norm_num [sampleCircle], by norm_num [sampleLine], by norm_num [sampleArc]⟩
  have happ := transforms_fresh_entity_id sampleCircle sampleLine sampleArc
    (2, 3) (0, 0) (1, 0) 30 7 (-4) 5 h5.1 h5.2.1 h5.2.2
  exact ⟨h5, happ.1.1, happ.1.2.1⟩

/-!
Lemmas about the dedent machinery and the compiled script.
-/

theorem lcp_length_le_left : ∀ a b : List Char, (lcp a b).length ≤ a.length
  | [], _ => by simp [lcp]
  | _ :: _, [] => by simp [lcp]
  | a :: as, b :: bs => by
    by_cases hab : a = b
    · simpa [lcp, hab] using lcp_length_le_left as bs
    · simp [lcp, hab]

theorem foldl_marginStep_some (ls : List (List Char)) (m : List Char) :
    ∃ m2, List.foldl marginStep (some m) ls = some m2 ∧ m2.length ≤ m.length := by
  induction ls generalizing m with
  | nil => exact ⟨m, rfl, le_refl _⟩
  | cons l rest ih =>
    rw [List.foldl_cons]
    cases hi : indentOf l with
    | none =>
      simpa [marginStep, hi] using ih m
    | some i =>
      obtain ⟨m2, hm2, hle⟩ := ih (lcp m i)
      refine ⟨m2, ?_, le_trans hle (lcp_length_le_left m i)⟩
      rw [marginStep, hi]
      exact hm2

theorem joinNL_decomp (l : List Char) (ls : List (List Char)) (h : l ∈ ls) :
    ∃ A B, joinNL ls = A ++ (l ++ B) := by
  induction ls with
  | nil => cases h
  | cons l0 rest ih =>
    rcases List.mem_cons.mp h with h0 | hmem
    · subst h0
      cases rest with
      | nil => exact ⟨[], [], by simp [joinNL]⟩
      | cons r rs => exact ⟨[], '\n' :: joinNL (r :: rs), by simp [joinNL]⟩
    · obtain ⟨A, B, hAB⟩ := ih hmem
      cases rest with
      | nil => cases hmem
      | cons r rs =>
        refine ⟨l0 ++ '\n' :: A, B, ?_⟩
        simp [joinNL, hAB]

theorem buildFsScript_decomp (tids : List String) (frag : String) :
    ∃ A B : List Char,
      (buildFsScript tids frag).data = A ++ (unionIdsText tids ++ B) := by
  classical
  set l5 : List Char :=
    "            const transient_ids = ".data ++ pyListReprC tids ++ ";".data with hl5def
  have hmem : l5 ∈ scriptLinesC tids frag := by
    unfold scriptLinesC
    exact List.mem_cons_of_mem _ (List.mem_cons_of_mem _ (List.mem_cons_of_mem _
      (List.mem_cons_of_mem _ (List.mem_cons_of_mem _ (List.mem_cons_self _ _)))))
  have hallfalse : l5.all isWs = false := by
    have h1 : ("            const transient_ids = ".data).all isWs = false := by decide
    rw [hl5def, List.all_append, List.all_append, h1, Bool.false_and, Bool.false_and]
  have hblank : blankWs l5 = l5 := by
    rw [blankWs, hallfalse]
    rfl
  have hl5split : l5 = "            ".data ++ unionIdsText tids := by
    rw [hl5def, unionIdsText,
      show ("            const transient_ids = ".data : List Char) =
        "            ".data ++ "const transient_ids = ".data by decide]
    simp [List.append_assoc]
  -- the dedent margin exists and is at most 8 characters long
  have hsplit3 : (scriptLinesC tids frag).map blankWs =
      ([ "".data, "                      ".data,
         "        function(context is Context, queries)\x7b   ".data ].map blankWs) ++
      (((scriptLinesC tids frag).drop 3).map blankWs) := by
    rw [← List.map_append]
    rfl
  obtain ⟨m, hm, hmlen⟩ :=
    foldl_marginStep_some (((scriptLinesC tids frag).drop 3).map blankWs) ("        ".data)
  have hmargin : marginOf ((scriptLinesC tids frag).map blankWs) = some m := by
    rw [hsplit3, marginOf, List.foldl_append]
    exact hm
  have hmlen8 : m.length ≤ 8 := by
    simpa using hmlen
  -- the dedented line keeps the union-ids text intact
  have hline : ∃ w : List Char, stripMargin m l5 = w ++ unionIdsText tids := by
    by_cases hpre : m.isPrefixOf l5
    · refine ⟨("            ".data).drop m.length, ?_⟩
      rw [stripMargin, if_pos hpre, hl5split,
        List.drop_append_of_le_length (by simpa using le_trans hmlen8 (by norm_num))]
    · exact ⟨"            ".data, by rw [stripMargin, if_neg hpre]; exact hl5split⟩
  obtain ⟨w, hw⟩ := hline
  have hded : dedentL (scriptLinesC tids frag) =
      ((scriptLinesC tids frag).map blankWs).map (stripMargin m) := by
    unfold dedentL
    dsimp only
    rw [hmargin]
  have hmem2 : stripMargin m l5 ∈ dedentL (scriptLinesC tids frag) := by
    rw [hded]
    refine List.mem_map_of_mem _ ?_
    have hx := List.mem_map_of_mem blankWs hmem
    rwa [hblank] at hx
  obtain ⟨A, B, hAB⟩ := joinNL_decomp _ _ hmem2
  refine ⟨A ++ w, B, ?_⟩
  show joinNL (dedentL (scriptLinesC tids frag)) = _
  rw [hAB, hw]
  simp [List.append_assoc]

/-- The calls log of one _apply_query invocation is always exactly one
submitted script: the compiled script for the current working set. -/
theorem applyQuery_calls (f : EntityFilter) (q : QueryType)
    (ev : String → Option FsResult) :
    (f.applyQuery q ev).calls = [f.scriptFor q] := by
  unfold EntityFilter.applyQuery
  dsimp only
  cases ev (f.scriptFor q) <;> rfl

/-- C1: every public filter operation submits exactly one compiled script,
and that script contains the union query's transient-id list rendered from
exactly the transient ids of the entities in the filter's current working
set, in working-set order. -/
theorem filter_union_query_exact (f : EntityFilter) (op : FilterOp)
    (ev : String → Option FsResult) :
    ∃ s A B, (f.runOp op ev).calls = [s] ∧
      s.data = A ++ (unionIdsText (f.available.map Entity.transient_id) ++ B) := by
  have hcalls : (f.runOp op ev).calls =
      [f.scriptFor (op.queryOf f.feature.clientUnits)] := by
    cases op <;> exact applyQuery_calls f _ ev
  obtain ⟨A, B, hAB⟩ := buildFsScript_decomp (f.available.map Entity.transient_id)
    ((op.queryOf f.feature.clientUnits).injectFeaturescript "cumulative_query")
  exact ⟨_, A, B, hcalls, hAB⟩

/-- Feature of the filter produced by a successful Except.map over a
rehydrated working set. -/
theorem feature_of_map_ok (ft : Feature) (r : Except PyError (List Entity))
    (g : List Entity → EntityFilter) (f2 : EntityFilter)
    (hg : ∀ av, (g av).feature = ft) (h : r.map g = .ok f2) : f2.feature = ft := by
  cases r with
  | error e => exact Except.noConfusion h
  | ok av =>
    cases h
    exact hg av

/-- The result of each public operation is the _apply_query result for its
query, mapped into a fresh filter over the (possibly re-wrapped) working
set. -/
theorem runOp_result (f : EntityFilter) (op : FilterOp)
    (ev : String → Option FsResult) :
    (f.runOp op ev).result =
      ((f.applyQuery (op.queryOf f.feature.clientUnits) ev).result).map
        (fun avail => ⟨f.feature, some .typeVar, op.rewrap avail⟩) := by
  cases op <;> rfl

/-- The calls log of each public operation is that of its single
_apply_query invocation. -/
theorem runOp_calls (f : EntityFilter) (op : FilterOp)
    (ev : String → Option FsResult) :
    (f.runOp op ev).calls = (f.applyQuery (op.queryOf f.feature.clientUnits) ev).calls := by
  cases op <;> rfl

/-- C5: every public filter operation leaves the receiving filter unchanged
(its working set, order included, and its owning feature are exactly what
they were before), keeps it independently queryable afterwards, and any
filter it returns is a new instance bound to the same owning feature. -/
theorem filter_ops_leave_receiver_unchanged (f : EntityFilter) (op : FilterOp)
    (ev : String → Option FsResult) :
    (f.runOp op ev).selfAfter = f ∧
    (∀ op2 ev2, EntityFilter.runOp (f.runOp op ev).selfAfter op2 ev2 = f.runOp op2 ev2) ∧
    (∀ f2, (f.runOp op ev).result = .ok f2 → f2.feature = f.feature) := by
  have hself : (f.runOp op ev).selfAfter = f := by cases op <;> rfl
  refine ⟨hself, fun op2 ev2 => by rw [hself], ?_⟩
  intro f2 h2
  rw [runOp_result] at h2
  exact feature_of_map_ok f.feature _
    (fun avail => ⟨f.feature, some .typeVar, op.rewrap avail⟩) f2 (fun _ => rfl) h2

/-- Witness for C5: a concrete successful contains_point call returns a new
filter over the evaluator's answer, bound to the same feature. -/
theorem filter_ops_leave_receiver_unchanged_witness :
    (sampleFilter.runOp (.containsPoint (0, 0, 0)) evOk).result =
      .ok ⟨sampleFeature, some .typeVar, [⟨.entityBase, "t9"⟩]⟩ ∧
    (⟨sampleFeature, some .typeVar, [⟨.entityBase, "t9"⟩]⟩ : EntityFilter).feature =
      sampleFilter.feature :=
  ⟨rfl, (filter_ops_leave_receiver_unchanged sampleFilter (.containsPoint (0, 0, 0))
    evOk).2.2 _ rfl⟩

/-- The failure form of _apply_query: when the evaluator reports no result,
the call raises a runtime error carrying the full compiled script text. -/
theorem applyQuery_none (f : EntityFilter) (q : QueryType)
    (ev : String → Option FsResult) (h : ev (f.scriptFor q) = none) :
    f.applyQuery q ev =
      ⟨.error (.runtimeError ("Query raised error when evaluating fs. Script:\n\n" ++
        f.scriptFor q)), [f.scriptFor q]⟩ := by
  unfold EntityFilter.applyQuery
  dsimp only
  rw [h]

/-- C7: whenever the remote evaluator reports failure for the submitted
query, the filter operation raises an error whose message carries the full
compiled script text, and exactly one script was submitted (no automatic
retry). -/
theorem eval_failure_propagates_with_script (f : EntityFilter) (op : FilterOp)
    (ev : String → Option FsResult)
    (h : ev (f.scriptFor (op.queryOf f.feature.clientUnits)) = none) :
    (f.runOp op ev).result = .error (.runtimeError
      ("Query raised error when evaluating fs. Script:\n\n" ++
        f.scriptFor (op.queryOf f.feature.clientUnits))) ∧
    (f.runOp op ev).calls = [f.scriptFor (op.queryOf f.feature.clientUnits)] ∧
    (f.runOp op ev).calls.length = 1 := by
  rw [runOp_result, runOp_calls, applyQuery_none f _ ev h]
  exact ⟨rfl, rfl, rfl⟩

/-- Witness for C7: a concrete failing evaluator call on a concrete filter. -/
theorem eval_failure_propagates_with_script_witness :
    evNone (sampleFilter.scriptFor (FilterOp.largest.queryOf
      sampleFilter.feature.clientUnits)) = none ∧
    (sampleFilter.runOp .largest evNone).calls =
      [sampleFilter.scriptFor (FilterOp.largest.queryOf sampleFilter.feature.clientUnits)] :=
  ⟨rfl, (eval_failure_propagates_with_script sampleFilter .largest evNone rfl).2.1⟩

/-- C8 counterexample: on a filter whose recovered generic argument is a
callable that is not an Entity subclass, resolving the element type does not
degrade to the generic Entity fallback - it raises an assertion error, and a
query operation on such a filter propagates that error instead of completing
with generic Entity instances. -/
theorem entity_type_noncls_counterexample :
    entityTypeOf (some .otherCallable) = .error .assertionError ∧
    (cexFilter.runOp .largest evOk).result = .error .assertionError :=
  ⟨rfl, rfl⟩

theorem mapM_loop_ok {α β : Type} (g : α → β) (ts : List α) (acc : List β) :
    List.mapM.loop (fun t => (Except.ok (g t) : Except PyError β)) ts acc
      = .ok (acc.reverse ++ ts.map g) := by
  induction ts generalizing acc with
  | nil =>
    simp only [List.mapM.loop, List.map_nil, List.append_nil]
    rfl
  | cons h t ih =>
    simp only [List.mapM.loop, ih, List.map_cons, List.reverse_cons, List.append_assoc,
      List.singleton_append]
    rfl

theorem mapM_ok_of_fun {α β : Type} (g : α → β) (ts : List α) :
    (ts.mapM (fun t => (Except.ok (g t) : Except PyError β))) = .ok (ts.map g) := by
  rw [List.mapM, mapM_loop_ok]
  rfl

theorem mapM_entity_ok (ts : List String) :
    (ts.mapM (fun tid => (Except.ok (Entity.mk .entityBase tid) : Except PyError Entity)))
      = .ok (ts.map (fun tid => Entity.mk .entityBase tid)) := mapM_ok_of_fun _ _

/-- The success form of _apply_query on a filter whose generic argument is a
type variable: the resolution falls back to the generic Entity class and
every returned transient id is wrapped in it. -/
theorem applyQuery_typevar (f : EntityFilter) (q : QueryType)
    (ev : String → Option FsResult) (r : FsResult)
    (hArg : f.origArg = some .typeVar) (hev : ev (f.scriptFor q) = some r) :
    f.applyQuery q ev =
      ⟨.ok ((r.value.map FsVal.value).map (fun tid => Entity.mk .entityBase tid)),
        [f.scriptFor q]⟩ := by
  unfold EntityFilter.applyQuery
  dsimp only
  rw [hev, hArg]
  exact congrArg (fun x => QueryRun.mk x [f.scriptFor q])
    (mapM_entity_ok (r.value.map FsVal.value))

/-- C8 amended: when the filter's recovered generic argument is present but
not callable (an uninstantiated type variable - the case the source's
fallback actually covers), resolving the element type degrades to the
generic Entity class, and a successful query operation completes without
raising, constructing entities of the fallback class (or of the explicitly
requested class for is_type).  A missing generic argument raises
AttributeError and a callable non-Entity argument raises AssertionError
instead (see the counterexample). -/
theorem entity_type_typevar_fallback (f : EntityFilter) (op : FilterOp)
    (ev : String → Option FsResult) (r : FsResult)
    (hArg : f.origArg = some .typeVar) (hev : ∀ s, ev s = some r) :
    entityTypeOf f.origArg = .ok .entityBase ∧
    ∃ f2, (f.runOp op ev).result = .ok f2 ∧
      ∀ e ∈ f2.available, e.variant = op.resultVariant := by
  refine ⟨by rw [hArg]; rfl, ?_⟩
  refine ⟨⟨f.feature, some .typeVar,
    op.rewrap ((r.value.map FsVal.value).map (fun tid => Entity.mk .entityBase tid))⟩, ?_, ?_⟩
  · rw [runOp_result, applyQuery_typevar f _ ev r hArg (hev _)]
    rfl
  · intro e he
    cases op with
    | isType v =>
      simp only [FilterOp.rewrap, List.mem_map] at he
      obtain ⟨e0, _, rfl⟩ := he
      rfl
    | containsPoint p =>
      simp only [FilterOp.rewrap, List.mem_map] at he
      obtain ⟨tid, _, rfl⟩ := he
      rfl
    | closestTo p =>
      simp only [FilterOp.rewrap, List.mem_map] at he
      obtain ⟨tid, _, rfl⟩ := he
      rfl
    | largest =>
      simp only [FilterOp.rewrap, List.mem_map] at he
      obtain ⟨tid, _, rfl⟩ := he
      rfl
    | smallest =>
      simp only [FilterOp.rewrap, List.mem_map] at he
      obtain ⟨tid, _, rfl⟩ := he
      rfl
    | intersects o d =>
      simp only [FilterOp.rewrap, List.mem_map] at he
      obtain ⟨tid, _, rfl⟩ := he
      rfl

/-- Witness for the C8 amended theorem at a concrete filter and evaluator. -/
theorem entity_type_typevar_fallback_witness :
    sampleFilter.origArg = some .typeVar ∧ (∀ s, evOk s = some ⟨[⟨"t9"⟩]⟩) ∧
    (entityTypeOf sampleFilter.origArg = .ok .entityBase ∧
      ∃ f2, (sampleFilter.runOp .smallest evOk).result = .ok f2 ∧
        ∀ e ∈ f2.available, e.variant = FilterOp.smallest.resultVariant) :=
  ⟨rfl, fun _ => rfl,
    entity_type_typevar_fallback sampleFilter .smallest evOk ⟨[⟨"t9"⟩]⟩ rfl fun _ => rfl⟩

end Pyshape
